import Mathlib

/-!
Verification of the `mem_macros` crate: the two exported forms
`align_of!(T)` and `size_of!(T)` (src/lib.rs) expand to calls of the
library primitives `core::mem::align_of::<T>()` and
`core::mem::size_of::<T>()`.  The primitives themselves are not part of the
crate, so they are modelled here from the crate documentation and the
specification's layout policy.
-/

namespace MemSpec

/-- A compilation platform: the byte width of a pointer (`usize`).  The
width of a pointer is required to be a power of two. -/
structure Platform where
  ptrBytes : Nat
  ptrBytesPow2 : ∃ k : Nat, ptrBytes = 2 ^ k

mutual

/-- The type expressions whose size and alignment can be queried:
primitives, arrays, the pointer-like formers listed in the crate
documentation, and `repr(C)` structs and unions. -/
inductive RustTy : Type where
  | unit
  | bool
  | u8
  | u16
  | u32
  | u64
  | i8
  | i16
  | i32
  | i64
  | f32
  | f64
  | char
  | usize
  | isize
  | array (t : RustTy) (n : Nat)
  | ref (t : RustTy)
  | refMut (t : RustTy)
  | constPtr (t : RustTy)
  | mutPtr (t : RustTy)
  | box (t : RustTy)
  | optionRef (t : RustTy)
  | optionBox (t : RustTy)
  | cstruct (fields : Fields)
  | cunion (members : Fields)

/-- A declared-order list of the fields of a struct or the members of a
union. -/
inductive Fields : Type where
  | nil
  | cons (t : RustTy) (rest : Fields)

end

/-- Round `size` up to the nearest multiple of `align`. -/
def roundUp (size align : Nat) : Nat :=
  (size + align - 1) / align * align

mutual

/-- Modelled from the spec: the primitive `core::mem::align_of::<T>()`,
which is not part of this crate.  Alignments of the fixed-width primitives
follow the crate documentation; `usize`, `isize` and all pointer-like
types have the pointer's alignment; an array has the alignment of its
element; a `repr(C)` struct or union has the maximal alignment of its
fields. -/
def mem.align_of (p : Platform) : RustTy → Nat
  | .unit => 1
  | .bool => 1
  | .u8 => 1
  | .u16 => 2
  | .u32 => 4
  | .u64 => 8
  | .i8 => 1
  | .i16 => 2
  | .i32 => 4
  | .i64 => 8
  | .f32 => 4
  | .f64 => 8
  | .char => 4
  | .usize => p.ptrBytes
  | .isize => p.ptrBytes
  | .array t _ => mem.align_of p t
  | .ref _ => p.ptrBytes
  | .refMut _ => p.ptrBytes
  | .constPtr _ => p.ptrBytes
  | .mutPtr _ => p.ptrBytes
  | .box _ => p.ptrBytes
  | .optionRef _ => p.ptrBytes
  | .optionBox _ => p.ptrBytes
  | .cstruct fields => fieldsAlign p fields
  | .cunion members => fieldsAlign p members

/-- Modelled from the spec: the alignment of a `repr(C)` struct or union
is the maximum of the alignments of its fields (1 when there are none). -/
def fieldsAlign (p : Platform) : Fields → Nat
  | .nil => 1
  | .cons t rest => max (mem.align_of p t) (fieldsAlign p rest)

end

mutual

/-- Modelled from the spec: the primitive `core::mem::size_of::<T>()`,
which is not part of this crate.  Sizes of the fixed-width primitives
follow the table in the crate documentation; `usize`, `isize` and the
pointer-like formers `&T`, `&mut T`, `*const T`, `*mut T`, `Box<T>`,
`Option<&T>`, `Option<Box<T>>` all have the pointer's size; `[T; n]` has
size `n * size_of(T)`; a `repr(C)` struct lays out its fields in declared
order, rounding the running size up to each field's alignment before
adding the field's size, and finally rounds the total up to the struct's
alignment; a `repr(C)` union has the maximal size of its members, not
rounded up. -/
def mem.size_of (p : Platform) : RustTy → Nat
  | .unit => 0
  | .bool => 1
  | .u8 => 1
  | .u16 => 2
  | .u32 => 4
  | .u64 => 8
  | .i8 => 1
  | .i16 => 2
  | .i32 => 4
  | .i64 => 8
  | .f32 => 4
  | .f64 => 8
  | .char => 4
  | .usize => p.ptrBytes
  | .isize => p.ptrBytes
  | .array t n => n * mem.size_of p t
  | .ref _ => p.ptrBytes
  | .refMut _ => p.ptrBytes
  | .constPtr _ => p.ptrBytes
  | .mutPtr _ => p.ptrBytes
  | .box _ => p.ptrBytes
  | .optionRef _ => p.ptrBytes
  | .optionBox _ => p.ptrBytes
  | .cstruct fields => roundUp (structFieldsSize p 0 fields) (fieldsAlign p fields)
  | .cunion members => unionSize p members

/-- Modelled from the spec: fold over the fields in declared order,
rounding the running size up to the field's alignment and then adding the
field's size. -/
def structFieldsSize (p : Platform) (acc : Nat) : Fields → Nat
  | .nil => acc
  | .cons t rest =>
      structFieldsSize p (roundUp acc (mem.align_of p t) + mem.size_of p t) rest

/-- Modelled from the spec: the size of a union is the maximum of the
sizes of its members (0 when there are none). -/
def unionSize (p : Platform) : Fields → Nat
  | .nil => 0
  | .cons t rest => max (mem.size_of p t) (unionSize p rest)

end

/-- Embedding of the expansion of `align_of!($t)` (src/lib.rs lines
26-30): the invocation expands to exactly
`$crate::__core::mem::align_of::<$t>()`. -/
def align_of_bang (p : Platform) (t : RustTy) : Nat :=
  mem.align_of p t

/-- Embedding of the expansion of `size_of!($t)` (src/lib.rs lines
172-176): the invocation expands to exactly
`$crate::__core::mem::size_of::<$t>()`. -/
def size_of_bang (p : Platform) (t : RustTy) : Nat :=
  mem.size_of p t

/-- A 64-bit platform: pointers are 8 bytes wide. -/
def p64 : Platform :=
  ⟨8, ⟨3, rfl⟩⟩

mutual

/-- Whether a type contains no union-like type among the constituents that
determine its layout (the pointee of a pointer-like type does not). -/
def unionFree : RustTy → Bool
  | .array t _ => unionFree t
  | .cstruct fields => fieldsUnionFree fields
  | .cunion _ => false
  | _ => true

/-- Whether every field of the list is union free. -/
def fieldsUnionFree : Fields → Bool
  | .nil => true
  | .cons t rest => unionFree t && fieldsUnionFree rest

end

/-- The maximum of two powers of two is a power of two. -/
theorem pow2_max {a b : Nat} (i j : Nat) (ha : a = 2 ^ i) (hb : b = 2 ^ j) :
    max a b = 2 ^ max i j := by
  subst ha
  subst hb
  rcases Nat.le_total i j with h | h
  · rw [Nat.max_eq_right (Nat.pow_le_pow_right (by norm_num) h), Nat.max_eq_right h]
  · rw [Nat.max_eq_left (Nat.pow_le_pow_right (by norm_num) h), Nat.max_eq_left h]

mutual

/-- Every alignment produced by the model is a power of two. -/
theorem align_of_pow2 (p : Platform) : (t : RustTy) → ∃ k, mem.align_of p t = 2 ^ k
  | .unit => ⟨0, rfl⟩
  | .bool => ⟨0, rfl⟩
  | .u8 => ⟨0, rfl⟩
  | .u16 => ⟨1, rfl⟩
  | .u32 => ⟨2, rfl⟩
  | .u64 => ⟨3, rfl⟩
  | .i8 => ⟨0, rfl⟩
  | .i16 => ⟨1, rfl⟩
  | .i32 => ⟨2, rfl⟩
  | .i64 => ⟨3, rfl⟩
  | .f32 => ⟨2, rfl⟩
  | .f64 => ⟨3, rfl⟩
  | .char => ⟨2, rfl⟩
  | .usize => p.ptrBytesPow2
  | .isize => p.ptrBytesPow2
  | .array t _ => align_of_pow2 p t
  | .ref _ => p.ptrBytesPow2
  | .refMut _ => p.ptrBytesPow2
  | .constPtr _ => p.ptrBytesPow2
  | .mutPtr _ => p.ptrBytesPow2
  | .box _ => p.ptrBytesPow2
  | .optionRef _ => p.ptrBytesPow2
  | .optionBox _ => p.ptrBytesPow2
  | .cstruct fields => fieldsAlign_pow2 p fields
  | .cunion members => fieldsAlign_pow2 p members

/-- The maximal alignment of a list of fields is a power of two. -/
theorem fieldsAlign_pow2 (p : Platform) : (fs : Fields) → ∃ k, fieldsAlign p fs = 2 ^ k
  | .nil => ⟨0, rfl⟩
  | .cons t rest => by
      obtain ⟨i, hi⟩ := align_of_pow2 p t
      obtain ⟨j, hj⟩ := fieldsAlign_pow2 p rest
      exact ⟨max i j, by rw [fieldsAlign]; exact pow2_max i j hi hj⟩

end

/-- Every alignment produced by the model is at least 1. -/
theorem align_of_pos (p : Platform) (t : RustTy) : 1 ≤ mem.align_of p t := by
  obtain ⟨k, hk⟩ := align_of_pow2 p t
  rw [hk]
  exact Nat.two_pow_pos k

/-- Rounding up to a multiple of `a` yields a multiple of `a`. -/
theorem roundUp_dvd (s a : Nat) : a ∣ roundUp s a := by
  unfold roundUp
  exact dvd_mul_left a _

/-- On every union-free type the modelled size is a multiple of the
modelled alignment. -/
theorem size_of_dvd (p : Platform) :
    (t : RustTy) → unionFree t = true → mem.align_of p t ∣ mem.size_of p t
  | .unit, _ => one_dvd _
  | .bool, _ => dvd_refl _
  | .u8, _ => dvd_refl _
  | .u16, _ => dvd_refl _
  | .u32, _ => dvd_refl _
  | .u64, _ => dvd_refl _
  | .i8, _ => dvd_refl _
  | .i16, _ => dvd_refl _
  | .i32, _ => dvd_refl _
  | .i64, _ => dvd_refl _
  | .f32, _ => dvd_refl _
  | .f64, _ => dvd_refl _
  | .char, _ => dvd_refl _
  | .usize, _ => dvd_refl _
  | .isize, _ => dvd_refl _
  | .array t n, h => by
      have ih := size_of_dvd p t (by simpa [unionFree] using h)
      simpa [mem.size_of, mem.align_of] using ih.mul_left n
  | .ref _, _ => dvd_refl _
  | .refMut _, _ => dvd_refl _
  | .constPtr _, _ => dvd_refl _
  | .mutPtr _, _ => dvd_refl _
  | .box _, _ => dvd_refl _
  | .optionRef _, _ => dvd_refl _
  | .optionBox _, _ => dvd_refl _
  | .cstruct fields, _ => roundUp_dvd _ _
  | .cunion _, h => by simp [unionFree] at h

/-- Claim C1: the expansion of `align_of!(T)` is exactly the value of the
primitive `core::mem::align_of::<T>()`, the expansion of `size_of!(T)` is
exactly the value of `core::mem::size_of::<T>()`, and neither adds any
computation of its own. -/
theorem bang_forwards (p : Platform) (t : RustTy) :
    align_of_bang p t = mem.align_of p t ∧ size_of_bang p t = mem.size_of p t :=
  ⟨rfl, rfl⟩

/-- Claim C2: for every concrete type `T`, `align_of!(T)` is at least 1
and is a power of two. -/
theorem align_of_bang_pow2 (p : Platform) (t : RustTy) :
    1 ≤ align_of_bang p t ∧ ∃ k, align_of_bang p t = 2 ^ k :=
  ⟨align_of_pos p t, align_of_pow2 p t⟩

/-- Claim C3, counterexample: for the union with members `u16` (size 2,
alignment 2) and `[u8; 3]` (size 3, alignment 1), `size_of!` returns the
unrounded maximum 3, which is neither 0 nor a multiple of the alignment
2. -/
theorem size_of_bang_not_dvd :
    size_of_bang p64 (.cunion (.cons .u16 (.cons (.array .u8 3) .nil))) = 3 ∧
      align_of_bang p64 (.cunion (.cons .u16 (.cons (.array .u8 3) .nil))) = 2 ∧
      ¬ align_of_bang p64 (.cunion (.cons .u16 (.cons (.array .u8 3) .nil))) ∣
          size_of_bang p64 (.cunion (.cons .u16 (.cons (.array .u8 3) .nil))) := by
  decide

/-- Claim C3, amended: zero-sized types such as the empty struct have size
0, and for every type whose layout involves no union-like type the result
of `size_of!` is a multiple of the result of `align_of!`; a union-like
type's size is the exact maximum of its member sizes and can fail to be a
multiple of its alignment. -/
theorem size_of_bang_dvd (p : Platform) (t : RustTy) (h : unionFree t = true) :
    size_of_bang p (.cstruct .nil) = 0 ∧ align_of_bang p t ∣ size_of_bang p t := by
  refine ⟨?_, size_of_dvd p t h⟩
  simp [size_of_bang, mem.size_of, structFieldsSize, fieldsAlign, roundUp]

/-- Witness for claim C3: the amended statement applied to the struct with
fields `(u8, u16)` on the 64-bit platform. -/
theorem size_of_bang_dvd_witness :
    unionFree (.cstruct (.cons .u8 (.cons .u16 .nil))) = true ∧
      (size_of_bang p64 (.cstruct .nil) = 0 ∧
        align_of_bang p64 (.cstruct (.cons .u8 (.cons .u16 .nil))) ∣
          size_of_bang p64 (.cstruct (.cons .u8 (.cons .u16 .nil)))) :=
  ⟨by decide, size_of_bang_dvd p64 (.cstruct (.cons .u8 (.cons .u16 .nil))) (by decide)⟩

/-- Claim C4: `size_of!([T; N])` equals `N * size_of!(T)`, and in
particular `size_of!([T; 0])` equals 0. -/
theorem size_of_bang_array (p : Platform) (t : RustTy) (n : Nat) :
    size_of_bang p (.array t n) = n * size_of_bang p t ∧
      size_of_bang p (.array t 0) = 0 := by
  refine ⟨rfl, ?_⟩
  simp [size_of_bang, mem.size_of]

/-- Claim C5: every fixed-width primitive numeric type has the
platform-independent byte width the language defines for it. -/
theorem size_of_bang_primitives (p : Platform) :
    size_of_bang p .u8 = 1 ∧ size_of_bang p .u16 = 2 ∧ size_of_bang p .u32 = 4 ∧
      size_of_bang p .u64 = 8 ∧ size_of_bang p .i8 = 1 ∧ size_of_bang p .i16 = 2 ∧
      size_of_bang p .i32 = 4 ∧ size_of_bang p .i64 = 8 ∧ size_of_bang p .f32 = 4 ∧
      size_of_bang p .f64 = 8 :=
  ⟨rfl, rfl, rfl, rfl, rfl, rfl, rfl, rfl, rfl, rfl⟩

/-- Claim C6: the `repr(C)` struct with fields `(u8, u16, u8)` has size 6
and alignment 2, and reordering the fields to `(u8, u8, u16)` gives size
4. -/
theorem size_of_bang_fieldStruct (p : Platform) :
    size_of_bang p (.cstruct (.cons .u8 (.cons .u16 (.cons .u8 .nil)))) = 6 ∧
      align_of_bang p (.cstruct (.cons .u8 (.cons .u16 (.cons .u8 .nil)))) = 2 ∧
      size_of_bang p (.cstruct (.cons .u8 (.cons .u8 (.cons .u16 .nil)))) = 4 := by
  refine ⟨?_, ?_, ?_⟩ <;>
    simp [size_of_bang, align_of_bang, mem.size_of, mem.align_of, structFieldsSize,
      fieldsAlign, roundUp]

/-- Claim C7: the size of a union-like type is the maximum of its member
sizes, not rounded up when that maximum is 0; in particular a union with
members of size 1 and size 2 has size 2. -/
theorem size_of_bang_cunion (p : Platform) (t : RustTy) (ms : Fields) :
    size_of_bang p (.cunion .nil) = 0 ∧
      size_of_bang p (.cunion (.cons t ms)) =
        max (size_of_bang p t) (size_of_bang p (.cunion ms)) ∧
      size_of_bang p (.cunion (.cons .u8 (.cons .u16 .nil))) = 2 :=
  ⟨rfl, rfl, rfl⟩

/-- Claim C8: for a fixed-size target `T`, the formers `&T`, `*const T`,
`Box<T>`, `Option<&T>` and `Option<Box<T>>` all give the same size. -/
theorem size_of_bang_ptr_eq (p : Platform) (t : RustTy) :
    size_of_bang p (.ref t) = size_of_bang p (.constPtr t) ∧
      size_of_bang p (.ref t) = size_of_bang p (.box t) ∧
      size_of_bang p (.ref t) = size_of_bang p (.optionRef t) ∧
      size_of_bang p (.ref t) = size_of_bang p (.optionBox t) :=
  ⟨rfl, rfl, rfl, rfl⟩

/-- Modelled from the spec: a query invocation is a pure compile-time
evaluation, so it carries the ambient state through untouched and pairs it
with the integer result of `align_of!`. -/
def invokeAlign {σ : Type} (p : Platform) (t : RustTy) (s : σ) : Nat × σ :=
  (align_of_bang p t, s)

/-- Modelled from the spec: the same for `size_of!`. -/
def invokeSize {σ : Type} (p : Platform) (t : RustTy) (s : σ) : Nat × σ :=
  (size_of_bang p t, s)

/-- Claim C9: two consecutive invocations of either query on the same type
yield identical results, and neither invocation changes any observable
state. -/
theorem invoke_idempotent {σ : Type} (p : Platform) (t : RustTy) (s : σ) :
    (invokeAlign p t ((invokeAlign p t s).2)).1 = (invokeAlign p t s).1 ∧
      (invokeAlign p t ((invokeAlign p t s).2)).2 = s ∧
      (invokeSize p t ((invokeSize p t s).2)).1 = (invokeSize p t s).1 ∧
      (invokeSize p t ((invokeSize p t s).2)).2 = s :=
  ⟨rfl, rfl, rfl, rfl⟩

/-- Claim C10: mutability never changes the size of a pointer:
`size_of!(&T)` equals `size_of!(&mut T)` and `size_of!(*const T)` equals
`size_of!(*mut T)`. -/
theorem size_of_bang_mut_eq (p : Platform) (t : RustTy) :
    size_of_bang p (.ref t) = size_of_bang p (.refMut t) ∧
      size_of_bang p (.constPtr t) = size_of_bang p (.mutPtr t) :=
  ⟨rfl, rfl⟩

end MemSpec
